import Mathlib

/-!
Verification development for the request pipeline of the `discogs` Go client
library (`discogs.go`, `database.go`).

Modelling conventions.
Go strings are modelled as `List Char` (`GoStr`); `strings.Split` with the
one-character separator `"/"` is `splitOnChar '/'`; `strconv.Atoi` is `atoi`
(sign, decimal digits, 64-bit range check); `strconv.FormatInt i 10` is
`intToDecimal i`.  A `rate.Limiter`'s limit is only ever set by this client
to values of the form `rate.Every d` with `d = time.Minute / n` (Go integer
division, nanoseconds); since `rate.Every` is injective on positive
durations we represent the limit by the interval `d` itself (an `Int` of
nanoseconds).  Machine integers (`int`, `int64`) are modelled as `Int`;
the only operation where width matters is `strconv.Atoi`'s range check,
which is explicit.  The HTTP transport is modelled by passing the response
the transport would deliver as an argument; the outcome records whether the
rate-limiter token acquisition and the transport exchange were reached.
`json.Unmarshal` into the caller's output slot is modelled by a caller
supplied `decode` function returning `Except` (error message or value),
and the value stored into the slot is returned explicitly (`written`).
-/

/-- Go strings, modelled as their character lists. -/
abbrev GoStr := List Char

/-- Model of `strings.Split s sep` for a one-character separator `sep`:
splits around each occurrence of `sep`, keeping empty segments, and
returns `[[]]` on the empty string. -/
def splitOnChar (sep : Char) : List Char → List (List Char)
  | [] => [[]]
  | c :: rest =>
    let r := splitOnChar sep rest
    if c == sep then [] :: r
    else
      match r with
      | [] => [[c]]
      | seg :: segs => (c :: seg) :: segs

/-- Value of `time.Minute` in nanoseconds (`time.Duration` units). -/
def minuteNs : Int := 60000000000

/-- Model of `strconv.Atoi`: an optional sign followed by at least one decimal
digit, nothing else, with the result required to fit in a signed 64-bit
integer; `none` models a non-nil error. -/
def atoi (s : GoStr) : Option Int :=
  let checkRange : Int → Option Int := fun v =>
    if v < -(2 ^ 63) ∨ 2 ^ 63 - 1 < v then none else some v
  let digitsVal : List Char → Option Nat := fun cs =>
    if cs.isEmpty then none
    else
      cs.foldl
        (fun acc c =>
          match acc with
          | none => none
          | some n => if c.isDigit then some (n * 10 + (c.toNat - ('0').toNat)) else none)
        (some 0)
  match s with
  | [] => none
  | c :: rest =>
    if c == '+' then (digitsVal rest).bind fun n => checkRange (n : Int)
    else if c == '-' then (digitsVal rest).bind fun n => checkRange (-(n : Int))
    else (digitsVal (c :: rest)).bind fun n => checkRange (n : Int)

/-- Decimal digits of a natural number (fuel-based so that it reduces in
the kernel); fuel `n + 1` always suffices. -/
def natToDigitsAux : Nat → Nat → List Char
  | 0, _ => []
  | fuel + 1, n =>
    if n < 10 then [Nat.digitChar n]
    else natToDigitsAux fuel (n / 10) ++ [Nat.digitChar (n % 10)]

/-- Decimal representation of a natural number. -/
def natToDecimal (n : Nat) : List Char := natToDigitsAux (n + 1) n

/-- Model of `strconv.FormatInt i 10`: decimal representation of an integer. -/
def intToDecimal (i : Int) : GoStr :=
  if i < 0 then '-' :: natToDecimal i.natAbs else natToDecimal i.toNat

/-- An `AuthType` is a Go string type. -/
abbrev AuthType := GoStr

def AuthTypeUnknown : AuthType := ("unknown").data
def AuthTypeNone : AuthType := ("none").data
def AuthTypeKeySecret : AuthType := ("key-secret").data
def AuthTypeOAuth : AuthType := ("oauth").data
def AuthTypePAT : AuthType := ("personal-access-token").data

/-- Model of `HTTPError`: status code and raw body text. -/
structure HTTPError where
  StatusCode : Int
  Message : GoStr
deriving DecidableEq, Repr

/-- Model of `DiscogsConfig`: nilable fields are `Option`s. -/
structure DiscogsConfig where
  AppName : GoStr
  ConsumerKey : Option GoStr
  ConsumerSecret : Option GoStr
  AccessToken : Option GoStr
  MaxRequests : Int
deriving DecidableEq

/-- The mutable state of the client's `rate.Limiter`: the limit is
represented by the `rate.Every` interval in nanoseconds (see the header
comment), the burst by the token capacity. -/
structure RateLimiter where
  limit : Int
  burst : Int
deriving DecidableEq, Repr

/-- Effect of `SetLimit (rate.Every (time.Minute / n))` followed by `SetBurst n`:
the limiter configured at `n` requests per minute. -/
def limiterAt (n : Int) : RateLimiter :=
  { limit := Int.tdiv minuteNs n, burst := n }

/-- The state of a `DiscogsClient` relevant to the pipeline: its
configuration and its rate limiter.  (`Host` and the transport handle
are modelled by the response argument of `Do`.) -/
structure DiscogsClient where
  Config : DiscogsConfig
  rateLimiter : RateLimiter
deriving DecidableEq

/-- An HTTP response as `Do` observes it: status code, the value of
`Header.Get (X-Discogs-Ratelimit)` (`[]` when the header is absent, as
`Header.Get` returns `""` then), and the body bytes. -/
structure HttpResponse where
  StatusCode : Int
  rateLimitHeader : GoStr
  Body : GoStr
deriving DecidableEq

/-- Model of `updateRateLimitFromHeader`: if the rate-limit header is present and
parses as an integer, set the limiter to the minimum of the configured
`MaxRequests` (when positive) and the parsed value, unless that effective
limit is `0`, in which case nothing changes. -/
def updateRateLimitFromHeader (dc : DiscogsClient) (res : HttpResponse) : DiscogsClient :=
  let rlHeader := res.rateLimitHeader
  if rlHeader ≠ [] then
    match atoi rlHeader with
    | some rateLimit =>
      let effectiveLimit : Int :=
        if dc.Config.MaxRequests > 0 then min dc.Config.MaxRequests rateLimit
        else rateLimit
      if effectiveLimit ≠ 0 then { dc with rateLimiter := limiterAt effectiveLimit }
      else dc
    | none => dc
  else dc

/-- Model of `SetMaxRequests`: for a positive argument, record it in the
configuration and reconfigure the limiter; otherwise do nothing. -/
def SetMaxRequests (dc : DiscogsClient) (requestsPerMinute : Int) : DiscogsClient :=
  if requestsPerMinute > 0 then
    { Config := { dc.Config with MaxRequests := requestsPerMinute },
      rateLimiter := limiterAt requestsPerMinute }
  else dc

/-- Model of `ErrMissingCredentials`: the auth type required by the matched route
and the request path. -/
structure ErrMissingCredentials where
  RequiredAuthType : AuthType
  Endpoint : GoStr
deriving DecidableEq

/-- Model of `ErrMatchNotFound`: no route pattern matched the endpoint. -/
structure ErrMatchNotFound where
  Endpoint : GoStr
deriving DecidableEq

/-- Model of `addAuthHeaders`: returns the `Authorization` header value set on the
request (`none` when no header is set), or the missing-credentials
error.  `path` is `req.URL.Path`, which for this client's URLs (host
without a path component) is the endpoint string. -/
def addAuthHeaders (config : DiscogsConfig) (authType : AuthType) (path : GoStr) :
    Except ErrMissingCredentials (Option GoStr) :=
  if authType == AuthTypeNone then
    .ok none
  else if authType == AuthTypeKeySecret then
    match config.ConsumerKey, config.ConsumerSecret with
    | some k, some s =>
      .ok (some (("Discogs key=").data ++ k ++ (", secret=").data ++ s))
    | _, _ => .error { RequiredAuthType := authType, Endpoint := path }
  else if authType == AuthTypeOAuth ∨ authType == AuthTypePAT then
    match config.AccessToken with
    | some tok => .ok (some (("Bearer ").data ++ tok))
    | none => .error { RequiredAuthType := authType, Endpoint := path }
  else
    .ok none

/-- Model of `isMatch`: the endpoint matches the route pattern iff both split into
the same number of `/`-separated segments and each pattern segment is
either brace-wrapped (a placeholder) or equal to the endpoint segment. -/
def isMatch (route endpoint : GoStr) : Bool :=
  let routeParts := splitOnChar '/' route
  let endpointParts := splitOnChar '/' endpoint
  if routeParts.length ≠ endpointParts.length then false
  else
    (routeParts.zip endpointParts).all fun p =>
      (((("\x7b").data).isPrefixOf p.1 && (("\x7d").data).isSuffixOf p.1) : Bool) || p.1 == p.2

/-- Model of `EndpointAuthMap`.  The Go map iteration order is unspecified; it is
modelled as an association list, and theorems about `matchRoute` on
tables with a unique (or no) matching pattern are order-independent. -/
def EndpointAuthMap : List (GoStr × AuthType) :=
  [(("/test").data, AuthTypeNone),
   (("/releases/\x7brelease_id\x7d").data, AuthTypeNone),
   (("/database/search").data, AuthTypeKeySecret)]

/-- Model of `matchRoute`: the auth type of the first table entry whose pattern
matches the endpoint, or `ErrMatchNotFound`.  (Go returns the pair
`(AuthTypeUnknown, err)` on failure; the `Except` carries the error.) -/
def matchRoute (endpoint : GoStr) (authMap : List (GoStr × AuthType)) :
    Except ErrMatchNotFound AuthType :=
  match authMap.find? (fun re => isMatch re.1 endpoint) with
  | some re => .ok re.2
  | none => .error { Endpoint := endpoint }

/-- Errors `Do` can return (transport and body-read failures are not
modelled: the transport is given as a delivered response). -/
inductive DoError where
  | httpError (e : HTTPError)
  | unmarshalError (msg : GoStr)
deriving DecidableEq

/-- Outcome of `Do`: client state after the call, the value stored into
the output slot by `json.Unmarshal` (if any), and the returned error
(if any). -/
structure DoOutcome (α : Type) where
  state : DiscogsClient
  written : Option α
  err : Option DoError

/-- Model of `Do`: wait on the limiter (a pure timing effect, no data outcome
here), perform the exchange (modelled by `response`), update the rate
limiter from the header, read the body, return an `HTTPError` on a
non-2xx status, otherwise decode a non-empty body into a non-nil output
slot. -/
def Do {α : Type} (dc : DiscogsClient) (decode : GoStr → Except GoStr α)
    (resNonNil : Bool) (response : HttpResponse) : DoOutcome α :=
  let dc := updateRateLimitFromHeader dc response
  let responseBody := response.Body
  if response.StatusCode < 200 ∨ 300 ≤ response.StatusCode then
    { state := dc, written := none,
      err := some (.httpError { StatusCode := response.StatusCode, Message := responseBody }) }
  else if resNonNil = true ∧ responseBody.length > 0 then
    match decode responseBody with
    | .ok v => { state := dc, written := some v, err := none }
    | .error e =>
      { state := dc, written := none,
        err := some (.unmarshalError (("failed to unmarshal response body: ").data ++ e)) }
  else
    { state := dc, written := none, err := none }

/-- Errors `request` can return. -/
inductive ReqError where
  | matchNotFound (e : ErrMatchNotFound)
  | missingCredentials (e : ErrMissingCredentials)
  | doErr (e : DoError)
deriving DecidableEq

/-- Outcome of `request`: as `DoOutcome`, plus whether the rate-limiter
token acquisition and the transport exchange were reached. -/
structure RequestOutcome (α : Type) where
  state : DiscogsClient
  written : Option α
  error : Option ReqError
  waitInvoked : Bool
  transportInvoked : Bool

/-- Model of `request`: resolve the auth type of the endpoint, add the auth
headers, and call `Do`.  URL parsing, query encoding and body
marshalling always succeed for the inputs this model quantifies over and
are not modelled as failure points. -/
def request {α : Type} (dc : DiscogsClient) (endpoint : GoStr)
    (decode : GoStr → Except GoStr α) (resNonNil : Bool)
    (transportResponse : HttpResponse) : RequestOutcome α :=
  match matchRoute endpoint EndpointAuthMap with
  | .error e =>
    { state := dc, written := none, error := some (.matchNotFound e),
      waitInvoked := false, transportInvoked := false }
  | .ok authType =>
    match addAuthHeaders dc.Config authType endpoint with
    | .error e =>
      { state := dc, written := none, error := some (.missingCredentials e),
        waitInvoked := false, transportInvoked := false }
    | .ok _ =>
      let o := Do dc decode resNonNil transportResponse
      { state := o.state, written := o.written, error := o.err.map .doErr,
        waitInvoked := true, transportInvoked := true }

/-- Model of `ErrReleaseNotFound`: the requested release id with the embedded
`*HTTPError`. -/
structure ErrReleaseNotFound where
  ReleaseID : Int
  toHTTPError : HTTPError
deriving DecidableEq

/-- Errors `Release` can return. -/
inductive ReleaseError where
  | releaseNotFound (e : ErrReleaseNotFound)
  | reqErr (e : ReqError)
deriving DecidableEq

/-- Model of `Release`: issue a `Get` on `/releases/<id>` (output slot non-nil);
a 404 `HTTPError` becomes `ErrReleaseNotFound` embedding it, any other
`HTTPError` is returned unmodified, other errors pass through, and on
success the output slot is returned. -/
def Release {α : Type} (dc : DiscogsClient) (releaseID : Int)
    (decode : GoStr → Except GoStr α) (transportResponse : HttpResponse) :
    DiscogsClient × Except ReleaseError (Option α) :=
  let endpoint := ("/releases/").data ++ intToDecimal releaseID
  let o := request dc endpoint decode true transportResponse
  match o.error with
  | some e =>
    match e with
    | .doErr (.httpError httpErr) =>
      if httpErr.StatusCode == 404 then
        (o.state, .error (.releaseNotFound { ReleaseID := releaseID, toHTTPError := httpErr }))
      else
        (o.state, .error (.reqErr (.doErr (.httpError httpErr))))
    | other => (o.state, .error (.reqErr other))
  | none => (o.state, .ok o.written)

/-- Sample configuration with no credentials and no explicit ceiling. -/
def sampleConfig : DiscogsConfig :=
  { AppName := ("DiscogsGo/0.1").data, ConsumerKey := none, ConsumerSecret := none,
    AccessToken := none, MaxRequests := 0 }

/-- Sample client without an explicit ceiling (anonymous baseline 25). -/
def sampleClient : DiscogsClient :=
  { Config := sampleConfig, rateLimiter := limiterAt 25 }

/-- Sample client with an explicit ceiling of 50 requests per minute. -/
def sampleClient50 : DiscogsClient :=
  { Config := { sampleConfig with MaxRequests := 50 }, rateLimiter := limiterAt 50 }

/-- A 200 response whose only relevant datum is its rate-limit header. -/
def respRL (h : GoStr) : HttpResponse :=
  { StatusCode := 200, rateLimitHeader := h, Body := [] }

/-- The JSON body of the sample 500 error response. -/
def errBody500 : GoStr := ("\x7b\"message\":\"Internal server error.\"\x7d").data

/-- A 500 response with a JSON error body and no rate-limit header. -/
def resp500 : HttpResponse := { StatusCode := 500, rateLimitHeader := [], Body := errBody500 }

/-- A decode function (into `Unit`) that always fails, echoing the body. -/
def dec0 : GoStr → Except GoStr Unit := fun s => .error s

/-- The JSON body of the sample 404 error response. -/
def notFoundBody : GoStr := ("\x7b\"message\":\"Release not found.\"\x7d").data

/-- A 404 response with a JSON error body and no rate-limit header. -/
def resp404 : HttpResponse := { StatusCode := 404, rateLimitHeader := [], Body := notFoundBody }

/-- Helper: `updateRateLimitFromHeader` never touches the configuration. -/
theorem updateRateLimitFromHeader_Config_eq (dc : DiscogsClient) (res : HttpResponse) :
    (updateRateLimitFromHeader dc res).Config = dc.Config := by
  unfold updateRateLimitFromHeader
  dsimp only
  repeat' split
  all_goals rfl

/-- Helper: one header-driven update cannot zero a nonzero burst. -/
theorem updateRateLimitFromHeader_burst_ne (dc : DiscogsClient) (res : HttpResponse)
    (h : dc.rateLimiter.burst ≠ 0) : (updateRateLimitFromHeader dc res).rateLimiter.burst ≠ 0 := by
  unfold updateRateLimitFromHeader
  dsimp only
  repeat' split
  all_goals simp_all [limiterAt]

/-- Helper: no sequence of header-driven updates zeroes a nonzero burst. -/
theorem foldl_update_burst_ne (rs : List HttpResponse) : ∀ dc : DiscogsClient,
    dc.rateLimiter.burst ≠ 0 →
    (rs.foldl updateRateLimitFromHeader dc).rateLimiter.burst ≠ 0 := by
  induction rs with
  | nil => exact fun dc h => h
  | cons r rest ih =>
    exact fun dc h => ih _ (updateRateLimitFromHeader_burst_ne dc r h)

/-- Claim C2: with a parsed header value `R ≠ 0`, the limiter is set to
`min MaxRequests R` requests per minute when an explicit ceiling
`MaxRequests > 0` is configured, and to `R` directly otherwise. -/
theorem updateRateLimitFromHeader_feedback (dc : DiscogsClient) (res : HttpResponse) (R : Int)
    (hparse : atoi res.rateLimitHeader = some R) (hR : R ≠ 0) :
    (dc.Config.MaxRequests > 0 →
      (updateRateLimitFromHeader dc res).rateLimiter = limiterAt (min dc.Config.MaxRequests R)) ∧
    (¬dc.Config.MaxRequests > 0 →
      (updateRateLimitFromHeader dc res).rateLimiter = limiterAt R) := by
  have hne : res.rateLimitHeader ≠ [] := by
    intro h
    rw [h] at hparse
    simp [atoi] at hparse
  unfold updateRateLimitFromHeader
  dsimp only
  rw [if_pos hne, hparse]
  dsimp only
  constructor
  · intro hC
    rw [if_pos hC, if_pos (by omega : min dc.Config.MaxRequests R ≠ 0)]
  · intro hC
    rw [if_neg hC, if_pos hR]

/-- Claim C2 witness at an explicit ceiling of 50 with server value 25,
and with no explicit ceiling with server value 25. -/
theorem updateRateLimitFromHeader_feedback_witness :
    atoi (("25").data) = some 25 ∧ (25 : Int) ≠ 0 ∧
    (updateRateLimitFromHeader sampleClient50 (respRL (("25").data))).rateLimiter =
      limiterAt (min 50 25) ∧
    (updateRateLimitFromHeader sampleClient (respRL (("25").data))).rateLimiter =
      limiterAt 25 :=
  ⟨by decide, by decide,
    (updateRateLimitFromHeader_feedback sampleClient50 (respRL (("25").data)) 25
      (by decide) (by decide)).1 (by decide),
    (updateRateLimitFromHeader_feedback sampleClient (respRL (("25").data)) 25
      (by decide) (by decide)).2 (by decide)⟩

/-- Claim C3: an absent, non-numeric, or zero rate-limit header leaves
the limiter unchanged; the configuration is never changed by a
header-driven update; and no sequence of header-driven updates zeroes a
nonzero effective limit. -/
theorem updateRateLimitFromHeader_noop (dc : DiscogsClient) (res : HttpResponse)
    (rs : List HttpResponse) :
    (res.rateLimitHeader = [] → updateRateLimitFromHeader dc res = dc) ∧
    (atoi res.rateLimitHeader = none → updateRateLimitFromHeader dc res = dc) ∧
    (atoi res.rateLimitHeader = some 0 → updateRateLimitFromHeader dc res = dc) ∧
    (updateRateLimitFromHeader dc res).Config = dc.Config ∧
    (dc.rateLimiter.burst ≠ 0 →
      (rs.foldl updateRateLimitFromHeader dc).rateLimiter.burst ≠ 0) := by
  refine ⟨?_, ?_, ?_, updateRateLimitFromHeader_Config_eq dc res,
    fun h => foldl_update_burst_ne rs dc h⟩
  · intro h
    simp [updateRateLimitFromHeader, h]
  · intro h
    unfold updateRateLimitFromHeader
    dsimp only
    split
    · rw [h]
    · rfl
  · intro h
    unfold updateRateLimitFromHeader
    dsimp only
    split
    · rw [h]
      dsimp only
      have hz : (if dc.Config.MaxRequests > 0 then min dc.Config.MaxRequests 0
          else (0 : Int)) = 0 := by
        split <;> omega
      rw [hz]
      simp
    · rfl

/-- Claim C3 witness: absent, non-numeric and zero headers on a client
with ceiling 50, and a run of all three never zeroes the burst. -/
theorem updateRateLimitFromHeader_noop_witness :
    updateRateLimitFromHeader sampleClient50 (respRL []) = sampleClient50 ∧
    updateRateLimitFromHeader sampleClient50 (respRL (("abc").data)) = sampleClient50 ∧
    updateRateLimitFromHeader sampleClient50 (respRL (("0").data)) = sampleClient50 ∧
    (updateRateLimitFromHeader sampleClient50 (respRL (("abc").data))).Config =
      sampleClient50.Config ∧
    (List.foldl updateRateLimitFromHeader sampleClient50
      [respRL (("abc").data), respRL (("0").data), respRL []]).rateLimiter.burst ≠ 0 :=
  ⟨(updateRateLimitFromHeader_noop sampleClient50 (respRL []) []).1 rfl,
   (updateRateLimitFromHeader_noop sampleClient50 (respRL (("abc").data)) []).2.1 (by decide),
   (updateRateLimitFromHeader_noop sampleClient50 (respRL (("0").data)) []).2.2.1 (by decide),
   (updateRateLimitFromHeader_noop sampleClient50 (respRL (("abc").data)) []).2.2.2.1,
   (updateRateLimitFromHeader_noop sampleClient50 (respRL [])
      [respRL (("abc").data), respRL (("0").data), respRL []]).2.2.2.2 (by decide)⟩

/-- Claim C8: the client state returned by `Do` is the rate-limiter
update applied to the incoming state, for every response, whatever its
status code: a non-2xx response still recalibrates the limiter. -/
theorem do_recalibrates_regardless_of_status {α : Type} (dc : DiscogsClient)
    (decode : GoStr → Except GoStr α) (resNonNil : Bool) (resp : HttpResponse) :
    (Do dc decode resNonNil resp).state = updateRateLimitFromHeader dc resp := by
  unfold Do
  dsimp only
  repeat' split
  all_goals rfl

/-- Claim C5: a response with a status outside 200–299 makes `Do` return
an `HTTPError` carrying that status and the raw body, and nothing is
written to the output slot. -/
theorem do_non2xx_http_error {α : Type} (dc : DiscogsClient)
    (decode : GoStr → Except GoStr α) (resNonNil : Bool) (resp : HttpResponse)
    (h : resp.StatusCode < 200 ∨ 300 ≤ resp.StatusCode) :
    (Do dc decode resNonNil resp).err =
      some (.httpError { StatusCode := resp.StatusCode, Message := resp.Body }) ∧
    (Do dc decode resNonNil resp).written = none := by
  unfold Do
  dsimp only
  rw [if_pos h]
  exact ⟨rfl, rfl⟩

/-- Claim C5 witness: a 500 with a JSON error body. -/
theorem do_non2xx_http_error_witness :
    ((500 : Int) < 200 ∨ (300 : Int) ≤ 500) ∧
    (Do sampleClient dec0 true resp500).err =
      some (.httpError { StatusCode := 500, Message := errBody500 }) ∧
    (Do sampleClient dec0 true resp500).written = none :=
  ⟨Or.inr (by decide),
   (do_non2xx_http_error sampleClient dec0 true resp500 (Or.inr (by decide))).1,
   (do_non2xx_http_error sampleClient dec0 true resp500 (Or.inr (by decide))).2⟩

/-- Claim C9: any auth type other than the four named ones makes
`addAuthHeaders` return success with no `Authorization` header set. -/
theorem addAuthHeaders_unrecognized_silent (config : DiscogsConfig) (t : AuthType)
    (path : GoStr) (h1 : t ≠ AuthTypeNone) (h2 : t ≠ AuthTypeKeySecret)
    (h3 : t ≠ AuthTypeOAuth) (h4 : t ≠ AuthTypePAT) :
    addAuthHeaders config t path = .ok none := by
  unfold addAuthHeaders
  rw [if_neg (by simpa using h1), if_neg (by simpa using h2), if_neg (by simp [h3, h4])]

/-- Claim C9 witness: the `unknown` auth type proceeds unauthenticated. -/
theorem addAuthHeaders_unrecognized_silent_witness :
    AuthTypeUnknown ≠ AuthTypeNone ∧
    addAuthHeaders sampleConfig AuthTypeUnknown (("/x").data) = .ok none :=
  ⟨by decide,
   addAuthHeaders_unrecognized_silent sampleConfig AuthTypeUnknown (("/x").data)
     (by decide) (by decide) (by decide) (by decide)⟩

/-- Claim C10: `SetMaxRequests` with a non-positive argument is a no-op:
the limiter's rate, the limiter's burst and the configured `MaxRequests`
are all unchanged. -/
theorem SetMaxRequests_nonpositive_noop (dc : DiscogsClient) (n : Int) (h : n ≤ 0) :
    SetMaxRequests dc n = dc ∧
    (SetMaxRequests dc n).rateLimiter.limit = dc.rateLimiter.limit ∧
    (SetMaxRequests dc n).rateLimiter.burst = dc.rateLimiter.burst ∧
    (SetMaxRequests dc n).Config.MaxRequests = dc.Config.MaxRequests := by
  have h1 : SetMaxRequests dc n = dc := by
    unfold SetMaxRequests
    rw [if_neg (by omega)]
  exact ⟨h1, by rw [h1], by rw [h1], by rw [h1]⟩

/-- Claim C10 witness at zero requests per minute. -/
theorem SetMaxRequests_nonpositive_noop_witness :
    (0 : Int) ≤ 0 ∧ SetMaxRequests sampleClient 0 = sampleClient :=
  ⟨by decide, (SetMaxRequests_nonpositive_noop sampleClient 0 (by decide)).1⟩

/-- Claim C6: on a 2xx response with non-empty body and non-nil output
slot, `Do` decodes into the slot and returns no error on decode success;
a decode failure yields the malformed-response error, which is never an
`HTTPError`; an empty body or nil slot returns no error without
decoding (the outcome does not depend on the decode function). -/
theorem do_2xx_decode_spec {α : Type} (dc : DiscogsClient) (decode : GoStr → Except GoStr α)
    (resNonNil : Bool) (resp : HttpResponse)
    (h2xx : 200 ≤ resp.StatusCode ∧ resp.StatusCode < 300) :
    (∀ v : α, resNonNil = true → resp.Body.length > 0 → decode resp.Body = .ok v →
      (Do dc decode resNonNil resp).err = none ∧
      (Do dc decode resNonNil resp).written = some v) ∧
    (∀ e : GoStr, resNonNil = true → resp.Body.length > 0 → decode resp.Body = .error e →
      (Do dc decode resNonNil resp).err =
        some (.unmarshalError (("failed to unmarshal response body: ").data ++ e)) ∧
      ∀ he : HTTPError, (Do dc decode resNonNil resp).err ≠ some (.httpError he)) ∧
    ((resNonNil = false ∨ resp.Body.length = 0) →
      (Do dc decode resNonNil resp).err = none ∧
      (Do dc decode resNonNil resp).written = none ∧
      ∀ decodeB : GoStr → Except GoStr α,
        Do dc decodeB resNonNil resp = Do dc decode resNonNil resp) := by
  have hst : ¬(resp.StatusCode < 200 ∨ 300 ≤ resp.StatusCode) := by omega
  refine ⟨?_, ?_, ?_⟩
  · intro v h1 h2 hdec
    unfold Do
    dsimp only
    rw [if_neg hst, if_pos ⟨h1, h2⟩, hdec]
    exact ⟨rfl, rfl⟩
  · intro e h1 h2 hdec
    unfold Do
    dsimp only
    rw [if_neg hst, if_pos ⟨h1, h2⟩, hdec]
    refine ⟨rfl, fun he hcon => ?_⟩
    simp at hcon
  · intro hnil
    have hcond : ¬(resNonNil = true ∧ resp.Body.length > 0) := by
      rintro ⟨hc1, hc2⟩
      rcases hnil with h | h
      · rw [h] at hc1
        exact absurd hc1 (by simp)
      · omega
    constructor
    · unfold Do
      dsimp only
      rw [if_neg hst, if_neg hcond]
    constructor
    · unfold Do
      dsimp only
      rw [if_neg hst, if_neg hcond]
    · intro decodeB
      unfold Do
      dsimp only
      rw [if_neg hst, if_neg hcond, if_neg hst, if_neg hcond]

/-- Claim C6 witness: decode success, decode failure (and its error is
not an `HTTPError`), and an empty body, all on 200 responses. -/
theorem do_2xx_decode_spec_witness :
    ((200 : Int) ≤ 200 ∧ (200 : Int) < 300) ∧
    (Do sampleClient (fun s => if s = ("1").data then Except.ok 7 else Except.error s) true
      { StatusCode := 200, rateLimitHeader := [], Body := ("1").data }).written = some 7 ∧
    (Do sampleClient (fun s => (Except.error s : Except GoStr Nat)) true
      { StatusCode := 200, rateLimitHeader := [], Body := ("x").data }).err =
      some (.unmarshalError (("failed to unmarshal response body: ").data ++ ("x").data)) ∧
    (∀ he : HTTPError,
      (Do sampleClient (fun s => (Except.error s : Except GoStr Nat)) true
        { StatusCode := 200, rateLimitHeader := [], Body := ("x").data }).err ≠
        some (.httpError he)) ∧
    (Do sampleClient (fun s => (Except.error s : Except GoStr Nat)) true
      { StatusCode := 200, rateLimitHeader := [], Body := [] }).err = none :=
  ⟨⟨by decide, by decide⟩,
   ((do_2xx_decode_spec sampleClient
      (fun s => if s = ("1").data then Except.ok 7 else Except.error s) true
      { StatusCode := 200, rateLimitHeader := [], Body := ("1").data }
      ⟨by decide, by decide⟩).1 7 rfl (by decide) rfl).2,
   ((do_2xx_decode_spec sampleClient (fun s => (Except.error s : Except GoStr Nat)) true
      { StatusCode := 200, rateLimitHeader := [], Body := ("x").data }
      ⟨by decide, by decide⟩).2.1 (("x").data) rfl (by decide) rfl).1,
   ((do_2xx_decode_spec sampleClient (fun s => (Except.error s : Except GoStr Nat)) true
      { StatusCode := 200, rateLimitHeader := [], Body := ("x").data }
      ⟨by decide, by decide⟩).2.1 (("x").data) rfl (by decide) rfl).2,
   ((do_2xx_decode_spec sampleClient (fun s => (Except.error s : Except GoStr Nat)) true
      { StatusCode := 200, rateLimitHeader := [], Body := [] }
      ⟨by decide, by decide⟩).2.2 (Or.inr rfl)).1⟩

/-- Claim C4: on an endpoint resolving to key-secret auth, a
configuration missing the consumer key or secret makes `request` fail
with the missing-credentials error naming the auth class and endpoint,
without invoking the rate-limiter wait or the transport. -/
theorem request_missing_key_secret_aborts {α : Type} (dc : DiscogsClient) (endpoint : GoStr)
    (decode : GoStr → Except GoStr α) (resNonNil : Bool) (resp : HttpResponse)
    (hroute : matchRoute endpoint EndpointAuthMap = .ok AuthTypeKeySecret)
    (hcred : dc.Config.ConsumerKey = none ∨ dc.Config.ConsumerSecret = none) :
    (request dc endpoint decode resNonNil resp).error =
      some (.missingCredentials
        { RequiredAuthType := AuthTypeKeySecret, Endpoint := endpoint }) ∧
    (request dc endpoint decode resNonNil resp).waitInvoked = false ∧
    (request dc endpoint decode resNonNil resp).transportInvoked = false := by
  have hauth : addAuthHeaders dc.Config AuthTypeKeySecret endpoint =
      .error { RequiredAuthType := AuthTypeKeySecret, Endpoint := endpoint } := by
    unfold addAuthHeaders
    rw [if_neg (by decide), if_pos (by decide)]
    rcases hcred with h | h
    · rw [h]
    · rw [h]
      cases dc.Config.ConsumerKey <;> rfl
  unfold request
  rw [hroute]
  dsimp only
  rw [hauth]
  exact ⟨rfl, rfl, rfl⟩

/-- Claim C4 witness: the search endpoint (key-secret class) on a client
with no credentials at all. -/
theorem request_missing_key_secret_aborts_witness :
    matchRoute (("/database/search").data) EndpointAuthMap = .ok AuthTypeKeySecret ∧
    (request sampleClient (("/database/search").data) dec0 true resp500).error =
      some (.missingCredentials
        { RequiredAuthType := AuthTypeKeySecret, Endpoint := ("/database/search").data }) ∧
    (request sampleClient (("/database/search").data) dec0 true resp500).waitInvoked = false ∧
    (request sampleClient (("/database/search").data) dec0 true resp500).transportInvoked =
      false :=
  ⟨by rfl,
   (request_missing_key_secret_aborts sampleClient (("/database/search").data) dec0 true
      resp500 (by rfl) (Or.inl rfl)).1,
   (request_missing_key_secret_aborts sampleClient (("/database/search").data) dec0 true
      resp500 (by rfl) (Or.inl rfl)).2.1,
   (request_missing_key_secret_aborts sampleClient (("/database/search").data) dec0 true
      resp500 (by rfl) (Or.inl rfl)).2.2⟩

/-- Helper: pointwise reading of one segment comparison — the boolean
`placeholder-or-equal` test holds iff a non-placeholder forces equality. -/
theorem placeholder_or_eq_iff {x y : GoStr} {a b : Bool} :
    ((a && b) || x == y) = true ↔ (¬(a = true ∧ b = true) → x = y) := by
  cases a <;> cases b <;> simp

/-- Helper: the segment-wise `all` over a zip of equal-length lists is
the indexed form of the matching condition. -/
theorem zip_all_route_iff : ∀ (l₁ l₂ : List GoStr), l₁.length = l₂.length →
    (((l₁.zip l₂).all fun p =>
        ((("\x7b").data).isPrefixOf p.1 && (("\x7d").data).isSuffixOf p.1) || p.1 == p.2) =
        true ↔
      ∀ (i : Nat) (h₁ : i < l₁.length) (h₂ : i < l₂.length),
        ¬((("\x7b").data).isPrefixOf (l₁.get ⟨i, h₁⟩) = true ∧
          (("\x7d").data).isSuffixOf (l₁.get ⟨i, h₁⟩) = true) →
        l₁.get ⟨i, h₁⟩ = l₂.get ⟨i, h₂⟩)
  | [], [], _ => by
    constructor
    · intro _ i h₁ h₂
      exact absurd h₁ (by simp)
    · intro _
      rfl
  | [], b :: l₂, h => by simp at h
  | a :: l₁, [], h => by simp at h
  | a :: l₁, b :: l₂, h => by
    have ih := zip_all_route_iff l₁ l₂ (by simpa using h)
    simp only [List.zip_cons_cons, List.all_cons, Bool.and_eq_true, ih]
    constructor
    · rintro ⟨hab, htail⟩ i h₁ h₂ hnp
      cases i with
      | zero => exact (placeholder_or_eq_iff.mp hab) hnp
      | succ j => exact htail j (by simpa using h₁) (by simpa using h₂) hnp
    · intro hall
      refine ⟨placeholder_or_eq_iff.mpr (fun hnp => hall 0 (by simp) (by simp) hnp),
        fun j hj₁ hj₂ hnp => hall (j + 1) (by simpa using hj₁) (by simpa using hj₂) hnp⟩

/-- Helper: when exactly one table entry's pattern matches the endpoint,
`matchRoute` returns that entry's auth type (so Go's unspecified map
iteration order is immaterial). -/
theorem matchRoute_unique_match (endpoint p : GoStr) (a : AuthType) :
    ∀ (authMap : List (GoStr × AuthType)), (p, a) ∈ authMap → isMatch p endpoint = true →
      (∀ q b, (q, b) ∈ authMap → isMatch q endpoint = true → q = p ∧ b = a) →
      matchRoute endpoint authMap = .ok a
  | [] => by
    intro hmem
    exact absurd hmem (List.not_mem_nil _)
  | (q, b) :: rest => by
    intro hmem hp huniq
    by_cases hq : isMatch q endpoint = true
    · obtain ⟨hq1, hq2⟩ := huniq q b (List.mem_cons_self _ _) hq
      unfold matchRoute
      rw [List.find?_cons_of_pos _ (by simpa using hq), hq2]
    · have hmem' : (p, a) ∈ rest := by
        rcases List.mem_cons.mp hmem with heq | hh
        · cases heq
          exact absurd hp hq
        · exact hh
      have hrec := matchRoute_unique_match endpoint p a rest hmem' hp
        (fun q' b' hm' hq' => huniq q' b' (List.mem_cons_of_mem _ hm') hq')
      unfold matchRoute at hrec ⊢
      rw [List.find?_cons_of_neg _ (by simpa using hq)]
      exact hrec

/-- Helper: when no table entry's pattern matches the endpoint,
`matchRoute` returns the no-route-matched error. -/
theorem matchRoute_no_match (endpoint : GoStr) (authMap : List (GoStr × AuthType))
    (h : ∀ q b, (q, b) ∈ authMap → isMatch q endpoint = false) :
    matchRoute endpoint authMap = .error { Endpoint := endpoint } := by
  unfold matchRoute
  have hn : authMap.find? (fun re => isMatch re.1 endpoint) = none :=
    List.find?_eq_none.mpr (fun x hx => by
      have hx' := h x.1 x.2 (by simpa using hx)
      simp [hx'])
  rw [hn]

/-- Claim C1: `isMatch` holds iff segment counts agree and every
non-brace-wrapped pattern segment equals the corresponding endpoint
segment; consequently `matchRoute` returns the auth class of the unique
matching table entry, and the no-route-matched error when no pattern
matches. -/
theorem route_matching_spec (route endpoint : GoStr) (authMap : List (GoStr × AuthType)) :
    (isMatch route endpoint = true ↔
      ((splitOnChar '/' route).length = (splitOnChar '/' endpoint).length ∧
        ∀ (i : Nat) (h₁ : i < (splitOnChar '/' route).length)
          (h₂ : i < (splitOnChar '/' endpoint).length),
          ¬((("\x7b").data).isPrefixOf ((splitOnChar '/' route).get ⟨i, h₁⟩) = true ∧
            (("\x7d").data).isSuffixOf ((splitOnChar '/' route).get ⟨i, h₁⟩) = true) →
          (splitOnChar '/' route).get ⟨i, h₁⟩ = (splitOnChar '/' endpoint).get ⟨i, h₂⟩)) ∧
    (∀ p a, (p, a) ∈ authMap → isMatch p endpoint = true →
      (∀ q b, (q, b) ∈ authMap → isMatch q endpoint = true → q = p ∧ b = a) →
      matchRoute endpoint authMap = .ok a) ∧
    ((∀ q b, (q, b) ∈ authMap → isMatch q endpoint = false) →
      matchRoute endpoint authMap = .error { Endpoint := endpoint }) := by
  refine ⟨?_, fun p a hm hp hu => matchRoute_unique_match endpoint p a authMap hm hp hu,
    fun h => matchRoute_no_match endpoint authMap h⟩
  unfold isMatch
  dsimp only
  by_cases hlen : (splitOnChar '/' route).length = (splitOnChar '/' endpoint).length
  · rw [if_neg (fun hc => hc hlen)]
    rw [zip_all_route_iff _ _ hlen]
    constructor
    · intro hall
      exact ⟨hlen, hall⟩
    · rintro ⟨_, hall⟩
      exact hall
  · rw [if_pos hlen]
    constructor
    · intro hfalse
      exact absurd hfalse (by simp)
    · rintro ⟨h1, _⟩
      exact absurd h1 hlen

/-- Claim C1 witness: the release pattern matches a literal release
path and is the unique matching table entry; a path matching no pattern
yields the no-route-matched error. -/
theorem route_matching_spec_witness :
    isMatch (("/releases/\x7brelease_id\x7d").data) (("/releases/2").data) = true ∧
    matchRoute (("/releases/2").data) EndpointAuthMap = .ok AuthTypeNone ∧
    matchRoute (("/nope/x").data) EndpointAuthMap =
      .error { Endpoint := ("/nope/x").data } :=
  ⟨by decide,
   (route_matching_spec [] (("/releases/2").data) EndpointAuthMap).2.1
     (("/releases/\x7brelease_id\x7d").data) AuthTypeNone (by decide) (by decide)
     (by
       intro q b hmem hq
       simp only [EndpointAuthMap, List.mem_cons, List.not_mem_nil, or_false] at hmem
       rcases hmem with hcase | hcase | hcase
       · rw [Prod.mk.injEq] at hcase
         rw [hcase.1] at hq
         exact absurd hq (by decide)
       · rw [Prod.mk.injEq] at hcase
         exact ⟨hcase.1, hcase.2⟩
       · rw [Prod.mk.injEq] at hcase
         rw [hcase.1] at hq
         exact absurd hq (by decide)),
   (route_matching_spec [] (("/nope/x").data) EndpointAuthMap).2.2
     (by
       intro q b hmem
       simp only [EndpointAuthMap, List.mem_cons, List.not_mem_nil, or_false] at hmem
       rcases hmem with hcase | hcase | hcase <;>
         (rw [Prod.mk.injEq] at hcase; rw [hcase.1]; decide))⟩

/-- Helper: the characters emitted for decimal digits are never `/`. -/
theorem digitChar_ne_slash : ∀ m : Nat, m < 10 → Nat.digitChar m ≠ '/' := by decide

/-- Helper: a decimal digit string contains no `/`. -/
theorem slash_not_mem_natToDigitsAux : ∀ (fuel n : Nat), '/' ∉ natToDigitsAux fuel n := by
  intro fuel
  induction fuel with
  | zero =>
    intro n
    simp [natToDigitsAux]
  | succ f ih =>
    intro n
    unfold natToDigitsAux
    split
    · rename_i hn
      simp only [List.mem_singleton]
      intro hc
      exact digitChar_ne_slash n hn hc.symm
    · simp only [List.mem_append, List.mem_singleton]
      rintro (hc | hc)
      · exact ih (n / 10) hc
      · exact digitChar_ne_slash (n % 10) (Nat.mod_lt _ (by decide)) hc.symm

/-- Helper: the decimal form of an integer contains no `/`. -/
theorem slash_not_mem_intToDecimal (i : Int) : '/' ∉ intToDecimal i := by
  unfold intToDecimal natToDecimal
  split
  · simp only [List.mem_cons]
    rintro (hc | hc)
    · exact absurd hc (by decide)
    · exact slash_not_mem_natToDigitsAux _ _ hc
  · exact slash_not_mem_natToDigitsAux _ _

/-- Helper: splitting a string that does not contain the separator
yields the single segment. -/
theorem splitOnChar_no_sep (sep : Char) : ∀ (s : List Char), sep ∉ s →
    splitOnChar sep s = [s]
  | [] => fun _ => rfl
  | c :: rest => fun h => by
    have hc : ¬((c == sep) = true) := by
      simp only [beq_iff_eq]
      intro hce
      exact h (by rw [hce]; exact List.mem_cons_self _ _)
    unfold splitOnChar
    dsimp only
    rw [if_neg hc, splitOnChar_no_sep sep rest (fun hm => h (List.mem_cons_of_mem _ hm))]

/-- Helper: splitting around a single interior separator occurrence. -/
theorem splitOnChar_sandwich (sep : Char) : ∀ (xs d : List Char), sep ∉ xs → sep ∉ d →
    splitOnChar sep (xs ++ sep :: d) = [xs, d]
  | [], d => fun _ hd => by
    show splitOnChar sep (sep :: d) = _
    unfold splitOnChar
    dsimp only
    rw [if_pos (by simp), splitOnChar_no_sep sep d hd]
  | c :: xs, d => fun hx hd => by
    have hc : ¬((c == sep) = true) := by
      simp only [beq_iff_eq]
      intro hce
      exact hx (by rw [hce]; exact List.mem_cons_self _ _)
    show splitOnChar sep (c :: (xs ++ sep :: d)) = _
    unfold splitOnChar
    dsimp only
    rw [if_neg hc,
      splitOnChar_sandwich sep xs d (fun hm => hx (List.mem_cons_of_mem _ hm)) hd]

/-- Helper: the path built for a release lookup splits into the empty
leading segment, `releases`, and the decimal id. -/
theorem releases_split (i : Int) :
    splitOnChar '/' ((("/releases/").data) ++ intToDecimal i) =
      [[], ("releases").data, intToDecimal i] := by
  have hd := slash_not_mem_intToDecimal i
  show splitOnChar '/' ('/' :: (("releases").data ++ '/' :: intToDecimal i)) = _
  unfold splitOnChar
  dsimp only
  rw [if_pos (by simp), splitOnChar_sandwich '/' (("releases").data) (intToDecimal i)
    (by decide) hd]

/-- Helper: every release-lookup path resolves to the release route with
auth type `none`. -/
theorem matchRoute_releases (i : Int) :
    matchRoute ((("/releases/").data) ++ intToDecimal i) EndpointAuthMap =
      .ok AuthTypeNone := by
  have hsplit := releases_split i
  have h1 : isMatch (("/test").data) ((("/releases/").data) ++ intToDecimal i) = false := by
    unfold isMatch
    dsimp only
    rw [hsplit]
    have ht : splitOnChar '/' (("/test").data) = [[], ("test").data] := by decide
    rw [ht, if_pos (by simp)]
  have h2 : isMatch (("/releases/\x7brelease_id\x7d").data)
      ((("/releases/").data) ++ intToDecimal i) = true := by
    unfold isMatch
    dsimp only
    rw [hsplit]
    have hp : splitOnChar '/' (("/releases/\x7brelease_id\x7d").data) =
        [[], ("releases").data, ("\x7brelease_id\x7d").data] := by decide
    rw [hp, if_neg (by simp)]
    have e3 : ((("\x7b").data).isPrefixOf (("\x7brelease_id\x7d").data) &&
        (("\x7d").data).isSuffixOf (("\x7brelease_id\x7d").data)) = true := by decide
    rw [List.zip_cons_cons, List.zip_cons_cons, List.zip_cons_cons]
    simp only [List.zip_nil_left, List.all_cons, List.all_nil]
    rw [e3]
    simp
  unfold matchRoute EndpointAuthMap
  rw [List.find?_cons_of_neg _ (by simpa using h1),
    List.find?_cons_of_pos _ (by simpa using h2)]

/-- Claim C7: a 404 from the release-lookup pipeline becomes the
release-not-found error carrying the requested id and embedding the
`HTTPError` with status 404 and the raw body; any other non-2xx status
is returned unmodified as the `HTTPError`, with no result. -/
theorem release_error_classification {α : Type} (dc : DiscogsClient) (id : Int)
    (decode : GoStr → Except GoStr α) (resp : HttpResponse) :
    (resp.StatusCode = 404 →
      (Release dc id decode resp).2 =
        .error (.releaseNotFound
          { ReleaseID := id, toHTTPError := { StatusCode := 404, Message := resp.Body } })) ∧
    ((resp.StatusCode < 200 ∨ 300 ≤ resp.StatusCode) → resp.StatusCode ≠ 404 →
      (Release dc id decode resp).2 =
        .error (.reqErr (.doErr (.httpError
          { StatusCode := resp.StatusCode, Message := resp.Body })))) := by
  have hroute := matchRoute_releases id
  have hauth : addAuthHeaders dc.Config AuthTypeNone ((("/releases/").data) ++ intToDecimal id) =
      .ok none := by
    unfold addAuthHeaders
    rw [if_pos (by decide)]
  constructor
  · intro h404
    unfold Release request
    dsimp only
    rw [hroute]
    dsimp only
    rw [hauth]
    dsimp only
    unfold Do
    dsimp only
    rw [if_pos (by omega : resp.StatusCode < 200 ∨ 300 ≤ resp.StatusCode)]
    dsimp only
    rw [h404]
    dsimp only [Option.map]
    rw [if_pos (by decide : (((404 : Int) == 404) = true))]
  · intro hst hne
    unfold Release request
    dsimp only
    rw [hroute]
    dsimp only
    rw [hauth]
    dsimp only
    unfold Do
    dsimp only
    rw [if_pos hst]
    dsimp only [Option.map]
    rw [if_neg (by simpa using hne)]

/-- Claim C7 witness: release id 2 with a 404 JSON body, and release id
3 with a 500 body, returned unmodified. -/
theorem release_error_classification_witness :
    (Release sampleClient 2 dec0 resp404).2 =
      .error (.releaseNotFound
        { ReleaseID := 2, toHTTPError := { StatusCode := 404, Message := notFoundBody } }) ∧
    (Release sampleClient 3 dec0 resp500).2 =
      .error (.reqErr (.doErr (.httpError { StatusCode := 500, Message := errBody500 }))) :=
  ⟨(release_error_classification sampleClient 2 dec0 resp404).1 rfl,
   (release_error_classification sampleClient 3 dec0 resp500).2 (Or.inr (by decide))
     (by decide)⟩
